import Mathlib

/- Shallow embedding of the geospatial-temporal normalisation and merge
   engine of the transportation-analytics repository: the notebook function
   clean_and_merge_data (geometry resolution, CRS normalisation,
   plausibility filter, time normalisation, merge/concat) and the two
   domain sanitizers of transportation_etl.py, _clean_taxi_data and
   _clean_bikeshare_data.  Pandas missing values (NaN / NaT / None) are
   modelled explicitly; the float literals of the source are exact decimals
   and all numeric cells are carried as integers in an exact per-column
   scale; timestamps count minutes (merge engine) or seconds (sanitizers)
   from 2024-01-01 00:00 of the respective clock. -/

namespace Spec2Proof

deriving instance DecidableEq for Except

/-- A scalar cell of a pandas or GeoPandas column.  A point carries exact
coordinates in longitude-latitude order, as shapely Point(x, y) does;
every coordinate of the source (the bounding-box float literals included)
is an exact multiple of one ten-thousandth of a degree, so coordinates
are carried as integers in that unit.  The constructors naive and utc
model timestamp values that pd.to_datetime parses, as minutes counted
from 2024-01-01 00:00 of the local wall clock, respectively of UTC; str
models text that to_datetime with coercion turns into NaT; null models
NaN / NaT / None. -/
inductive Value where
  | pt (lon lat : ℤ)
  | naive (m : ℤ)
  | utc (m : ℤ)
  | num (q : ℤ)
  | str (s : String)
  | null
deriving DecidableEq, Repr

/-- One row, as an association list from column label to cell. -/
abbrev Row := List (String × Value)

/-- A (Geo)DataFrame: ordered column labels, the declared CRS (none models
an unset CRS), and the rows.  A table whose columns do not include
"geometry" has no active geometry column, so reading gdf.crs or
gdf.geometry on it raises AttributeError. -/
structure DF where
  cols : List String
  crs : Option String
  rows : List Row
deriving DecidableEq, Repr

/-- Reading one cell; a missing binding reads as NaN, as in pandas. -/
def getVal (r : Row) (c : String) : Value := (r.lookup c).getD Value.null

/-- Column assignment on one row: the new binding replaces any previous
binding of the same label, as a pandas column write does. -/
def updCol (r : Row) (c : String) (v : Value) : Row :=
  (c, v) :: r.filter (fun p => p.1 != c)

/-- Character-list test that the first list starts the second. -/
def leadsList : List Char → List Char → Bool
  | [], _ => true
  | _ :: _, [] => false
  | a :: as, b :: bs => a == b && leadsList as bs

/-- Character-list substring containment. -/
def subAt : List Char → List Char → Bool
  | pat, [] => pat.isEmpty
  | pat, c :: t => leadsList pat (c :: t) || subAt pat t

/-- Substring test used by the case-insensitive lat/lon column search of
clean_and_merge_data: the python expression pat in c.lower(). -/
def hasSub (s pat : String) : Bool := subAt pat.data (s.data.map Char.toLower)

def isLatName (c : String) : Bool := hasSub c "lat"

def isLonName (c : String) : Bool := hasSub c "lon" || hasSub c "lng"

def notNull (v : Value) : Bool := v != Value.null

/-- Point construction from the first longitude-like and the first
latitude-like column, zip(df[lon], df[lat]); a non-numeric coordinate
value makes the shapely Point constructor raise, modelled as none. -/
def rowPoint (lonc latc : String) (r : Row) : Option Row :=
  match getVal r lonc, getVal r latc with
  | Value.num lo, Value.num la => some (("geometry", Value.pt lo la) :: r)
  | _, _ => none

/-- The dropna on the two coordinate columns that precedes point
construction. -/
def keptRows (df : DF) (latc lonc : String) : List Row :=
  df.rows.filter (fun r => notNull (getVal r latc) && notNull (getVal r lonc))

/-- Geometry resolution of clean_and_merge_data: a table already carrying a
geometry column is taken as is; otherwise the first latitude-like and
longitude-like columns are searched case-insensitively, rows missing
either coordinate are dropped, and a point geometry column with CRS
EPSG:4326 is appended; with no such column pair the table proceeds without
geometry. -/
def geomResolve (df : DF) : Except String DF :=
  if df.cols.contains "geometry" then Except.ok df
  else
    match df.cols.filter isLatName, df.cols.filter isLonName with
    | latc :: _, lonc :: _ =>
        if (keptRows df latc lonc).all (fun r => (rowPoint lonc latc r).isSome) then
          Except.ok { cols := df.cols ++ ["geometry"], crs := some "EPSG:4326",
                      rows := (keptRows df latc lonc).filterMap (rowPoint lonc latc) }
        else Except.error "TypeError: point coordinates must be numeric"
    | _, _ => Except.ok df

/-- CRS normalisation.  Reading gdf.crs on a GeoDataFrame without an
active geometry column raises AttributeError, which aborts the table; an
unset CRS is declared to be the target by set_crs; a CRS differing from
the target triggers gdf.to_crs, an external PROJ computation whose
failure the source swallows (except followed by pass, keeping the table
unchanged) - reprojection itself is external-library work and is modelled
as that kept-unchanged branch; no claim exercises a genuine reprojection,
every table of interest already carries the target CRS or none. -/
def crsNormalize (target : String) (df : DF) : Except String DF :=
  if df.cols.contains "geometry" then
    Except.ok { df with crs := some (df.crs.getD target) }
  else
    Except.error "AttributeError: no active geometry column"

/-- Bounding-box latitude 40.4774 degrees, in ten-thousandths. -/
def latLo : ℤ := 404774

/-- Bounding-box latitude 40.9176 degrees, in ten-thousandths. -/
def latHi : ℤ := 409176

/-- Bounding-box longitude -74.2591 degrees, in ten-thousandths. -/
def lonLo : ℤ := -742591

/-- Bounding-box longitude -73.7004 degrees, in ten-thousandths. -/
def lonHi : ℤ := -737004

/-- One row passes the NYC bounding-box filter when its geometry cell is a
point inside the box; a row whose geometry cell is not a point reads as
NaN coordinates and every comparison against NaN is false, so the row is
dropped. -/
def inBounds (r : Row) : Bool :=
  match getVal r "geometry" with
  | Value.pt lo la =>
      decide (latLo ≤ la) && decide (la ≤ latHi) && decide (lonLo ≤ lo) && decide (lo ≤ lonHi)
  | _ => false

/-- GPS-outlier rejection of clean_and_merge_data, restricting rows to the
plausible NYC bounding box. -/
def plausibilityFilter (df : DF) : DF := { df with rows := df.rows.filter inBounds }

def springFwdLocal : ℤ := 69 * 1440 + 120

def fallBackLocal : ℤ := 307 * 1440 + 60

/-- Localisation of an America/New_York naive wall-clock minute of 2024 to
UTC: EST (offset +300 minutes to UTC) before the spring-forward gap of
2024-03-10 02:00, the gap itself nonexistent, EDT (+240) through the
summer, the repeated hour after 2024-11-03 01:00 ambiguous, EST after.
Ambiguous and nonexistent local times yield none, matching tz_localize
with the ambiguous and nonexistent arguments both set to NaT. -/
def nyLocalToUtc (m : ℤ) : Option ℤ :=
  if m < springFwdLocal then some (m + 300)
  else if m < springFwdLocal + 60 then none
  else if m < fallBackLocal then some (m + 240)
  else if m < fallBackLocal + 60 then none
  else some (m + 300)

/-- Per-cell effect of pd.to_datetime with coercion of errors: timestamp
values parse to themselves, anything else becomes NaT. -/
def parseTime : Value → Value
  | Value.naive m => Value.naive m
  | Value.utc m => Value.utc m
  | _ => Value.null

def isUtcVal : Value → Bool
  | Value.utc _ => true
  | _ => false

/-- Per-cell effect of tz_localize into America/New_York followed by
tz_convert to UTC, on a column whose dtype is tz-naive. -/
def localizeNYtoUTC : Value → Value
  | Value.naive m =>
      match nyLocalToUtc m with
      | some u => Value.utc u
      | none => Value.null
  | _ => Value.null

/-- Per-cell effect of tz_convert to UTC on a column whose dtype is
already tz-aware. -/
def convertUTC : Value → Value
  | Value.utc m => Value.utc m
  | _ => Value.null

/-- Writing the parsed timestamp column back into one row. -/
def parseRow (tc : String) (r : Row) : Row := updCol r tc (parseTime (getVal r tc))

/-- The dtype test gdf[time_col].dt.tz is None: a parsed column is
tz-naive exactly when it holds no tz-aware value. -/
def colNaiveAt (rows : List Row) (tc : String) : Bool :=
  rows.all (fun r => ! isUtcVal (getVal r tc))

/-- Writing the localised or converted timestamp column back into one
row; the flag selects the tz-naive branch. -/
def convRow (b : Bool) (tc : String) (r : Row) : Row :=
  updCol r tc ((if b then localizeNYtoUTC else convertUTC) (getVal r tc))

/-- One pass of the timestamp loop of clean_and_merge_data for one
configured column: skip if the column is absent, otherwise parse, branch
on the column dtype being tz-naive, localize or convert, then drop the
rows whose cell resolved to NaT. -/
def timeNormalizeCol (df : DF) (tc : String) : DF :=
  if df.cols.contains tc then
    let parsed := df.rows.map (parseRow tc)
    let conv := parsed.map (convRow (colNaiveAt parsed tc) tc)
    { df with rows := conv.filter (fun r => notNull (getVal r tc)) }
  else df

def normalizeTimes (tcs : List String) (df : DF) : DF := tcs.foldl timeNormalizeCol df

/-- The per-table body of the loop of clean_and_merge_data. -/
def cleanTable (target : String) (tcs : List String) (df : DF) : Except String DF :=
  match geomResolve df with
  | Except.error e => Except.error e
  | Except.ok g =>
      match crsNormalize target g with
      | Except.error e => Except.error e
      | Except.ok g2 => Except.ok (normalizeTimes tcs (plausibilityFilter g2))

/-- The merge key set: the configured time columns present verbatim in
every cleaned table, then the geometry column when present in every
cleaned table. -/
def mergeCols (tcs : List String) (cleaned : List DF) : List String :=
  (tcs.filter (fun c => cleaned.all (fun t => t.cols.contains c))) ++
    (if cleaned.all (fun t => t.cols.contains "geometry") then ["geometry"] else [])

def keepRight (keys : List String) (c : String) : Bool := ! keys.contains c

/-- One inner merge of pandas on the key columns, with suffixes None and
_dup: the left table keeps its labels, a non-key right column colliding
with a left label is renamed by appending _dup. -/
def joinTables (keys : List String) (t1 t2 : DF) : DF :=
  let rn := fun (c : String) => if t1.cols.contains c then c ++ "_dup" else c
  { cols := t1.cols ++ (t2.cols.filter (keepRight keys)).map rn,
    crs := t1.crs,
    rows := t1.rows.flatMap (fun r1 =>
      (t2.rows.filter (fun r2 => keys.all (fun k => getVal r1 k == getVal r2 k))).map
        (fun r2 => r1 ++ (r2.filter (fun p => keepRight keys p.1)).map (fun p => (rn p.1, p.2)))) }

/-- Row-wise pd.concat with index ignored: the column labels are the union
in order of first appearance, the rows follow source order, and a row
lacking a column reads as NaN there. -/
def concatTables (l : List DF) : DF :=
  { cols := l.foldl (fun acc t => acc ++ t.cols.filter (fun c => ! acc.contains c)) [],
    crs := match l with | [] => none | t :: _ => t.crs,
    rows := l.flatMap DF.rows }

/-- The final constructor gpd.GeoDataFrame with the geometry keyword:
raises when the merged table has no geometry column to declare. -/
def finalizeGeom (df : DF) : Except String DF :=
  if df.cols.contains "geometry" then Except.ok df
  else Except.error "ValueError: geometry column not present"

/-- Lines 71 to 84 of the notebook source: compute the key set, then
either fold the inner merges left to right starting from cleaned_dfs[0]
(an IndexError on an empty list) or concatenate (a ValueError on an empty
list), and declare the geometry column of the result. -/
def mergeStage (tcs : List String) (cleaned : List DF) : Except String DF :=
  let keys := mergeCols tcs cleaned
  if keys.isEmpty then
    match cleaned with
    | [] => Except.error "ValueError: no objects to concatenate"
    | _ :: _ => finalizeGeom (concatTables cleaned)
  else
    match cleaned with
    | [] => Except.error "IndexError: list index out of range"
    | t :: rest => finalizeGeom (rest.foldl (joinTables keys) t)

/-- The Python for-loop that cleans each table in order, appending the
results and propagating the first exception. -/
def exMap {α β : Type} (f : α → Except String β) : List α → Except String (List β)
  | [] => Except.ok []
  | a :: l =>
      match f a with
      | Except.error e => Except.error e
      | Except.ok b =>
          match exMap f l with
          | Except.error e => Except.error e
          | Except.ok l2 => Except.ok (b :: l2)

/-- clean_and_merge_data: clean every input table, then merge or
concatenate on the available keys. -/
def cleanAndMergeData (dfs : List DF) (target : String) (tcs : List String) :
    Except String DF :=
  match exMap (cleanTable target tcs) dfs with
  | Except.error e => Except.error e
  | Except.ok cleaned => mergeStage tcs cleaned

/-- A raw numeric cell of an ETL column: a finite number, text, or
missing.  Numbers are carried as exact integers in a per-column scale
(documented at each use); text is what pd.to_numeric cannot parse. -/
inductive RVal where
  | num (v : ℤ)
  | txt (s : String)
  | null
deriving DecidableEq, Repr

/-- pd.to_numeric with coercion of errors: numbers stay, anything else
becomes NaN. -/
def to_numeric : RVal → RVal
  | RVal.num v => RVal.num v
  | RVal.txt _ => RVal.null
  | RVal.null => RVal.null

/-- Strict greater-than of a cell against a bound; any comparison against
NaN is false, so NaN rows fail every range filter. -/
def rGTz (v : RVal) (c : ℤ) : Bool :=
  match v with
  | RVal.num q => decide (c < q)
  | _ => false

def rLTz (v : RVal) (c : ℤ) : Bool :=
  match v with
  | RVal.num q => decide (q < c)
  | _ => false

def rLEz (v : RVal) (c : ℤ) : Bool :=
  match v with
  | RVal.num q => decide (q ≤ c)
  | _ => false

/-- A raw timestamp cell of an ETL column: a parseable timestamp carried
as seconds counted from 2024-01-01 00:00, unparseable text, or missing. -/
inductive RTime where
  | ts (s : ℤ)
  | txt (s : String)
  | null
deriving DecidableEq, Repr

/-- pd.to_datetime with coercion of errors on an ETL cell. -/
def to_datetime : RTime → RTime
  | RTime.ts s => RTime.ts s
  | RTime.txt _ => RTime.null
  | RTime.null => RTime.null

def isTs : RTime → Bool
  | RTime.ts _ => true
  | _ => false

/-- dt.hour of a timestamp whose seconds count from a midnight. -/
def hourOfSec (s : ℤ) : ℤ := (s.fdiv 3600).emod 24

/-- dt.weekday with Monday as 0; 2024-01-01, the epoch of the encoding,
is a Monday. -/
def weekdayOfSec (s : ℤ) : ℤ := (s.fdiv 86400).emod 7

def dayNames : List String :=
  ["Monday", "Tuesday", "Wednesday", "Thursday", "Friday", "Saturday", "Sunday"]

def dayNameOfSec (s : ℤ) : String := dayNames.getD (weekdayOfSec s).toNat "Monday"

/-- dt.month over the cumulative day counts of 2024, the year the
encoding covers. -/
def monthOfSec (s : ℤ) : ℤ :=
  let d := s.fdiv 86400
  if d < 31 then 1 else if d < 60 then 2 else if d < 91 then 3 else if d < 121 then 4
  else if d < 152 then 5 else if d < 182 then 6 else if d < 213 then 7 else if d < 244 then 8
  else if d < 274 then 9 else if d < 305 then 10 else if d < 335 then 11 else 12

def hourOfRT (v : RTime) : Option ℤ :=
  match v with
  | RTime.ts s => some (hourOfSec s)
  | _ => none

def dayNameOfRT (v : RTime) : Option String :=
  match v with
  | RTime.ts s => some (dayNameOfSec s)
  | _ => none

def monthOfRT (v : RTime) : Option ℤ :=
  match v with
  | RTime.ts s => some (monthOfSec s)
  | _ => none

def weekdayOfRT (v : RTime) : Option ℤ :=
  match v with
  | RTime.ts s => some (weekdayOfSec s)
  | _ => none

/-- One taxi record.  Money and distance cells are in milli-units (one
thousandth of a dollar, of a mile, or of a passenger), timestamps in
seconds; the derived fields start out absent and are written by the
cleaner.  trip_durationSec carries sixty times the trip_duration float of
the source, which is in minutes. -/
structure TaxiRow where
  passenger_count : RVal
  trip_distance : RVal
  fare_amount : RVal
  tip_amount : RVal
  total_amount : RVal
  pickup_datetime : RTime
  dropoff_datetime : RTime
  PULocationID : RVal
  DOLocationID : RVal
  trip_durationSec : Option ℤ
  pickup_hour : Option ℤ
  pickup_day : Option String
  pickup_month : Option ℤ
  pickup_weekday : Option ℤ
  avg_speed_mph : Option (ℤ × ℤ)
  pickup_zone : Option RVal
  dropoff_zone : Option RVal
deriving DecidableEq, Repr

/-- A taxi table: which columns the frame carries (pandas column presence
is a table-level fact) and the rows. -/
structure TaxiTable where
  has_passenger_count : Bool
  has_trip_distance : Bool
  has_fare_amount : Bool
  has_tip_amount : Bool
  has_total_amount : Bool
  has_pickup_datetime : Bool
  has_dropoff_datetime : Bool
  has_PULocationID : Bool
  has_DOLocationID : Bool
  rows : List TaxiRow
deriving DecidableEq, Repr

/-- An input taxi row: raw cells only, derived fields absent. -/
def inTaxiRow (pc dist fare : RVal) (pu dr : RTime) : TaxiRow :=
  { passenger_count := pc, trip_distance := dist, fare_amount := fare,
    tip_amount := RVal.null, total_amount := RVal.null,
    pickup_datetime := pu, dropoff_datetime := dr,
    PULocationID := RVal.null, DOLocationID := RVal.null,
    trip_durationSec := none, pickup_hour := none, pickup_day := none,
    pickup_month := none, pickup_weekday := none, avg_speed_mph := none,
    pickup_zone := none, dropoff_zone := none }

/-- dropoff minus pickup, in seconds (the source stores the same quantity
as a float of minutes). -/
def durSecOf (r : TaxiRow) : Option ℤ :=
  match r.pickup_datetime, r.dropoff_datetime with
  | RTime.ts p, RTime.ts d => some (d - p)
  | _, _ => none

def oGTz (v : Option ℤ) (c : ℤ) : Bool :=
  match v with
  | some q => decide (c < q)
  | none => false

def oLTz (v : Option ℤ) (c : ℤ) : Bool :=
  match v with
  | some q => decide (q < c)
  | none => false

/-- The exact value of trip_distance / (trip_duration / 60) as an
unreduced fraction: with the distance in milli-miles and the duration in
seconds the miles-per-hour float of the source equals
(3600 * dm) / (1000 * ds). -/
def speedOf (dm ds : ℤ) : ℤ × ℤ := (3600 * dm, 1000 * ds)

/-- avg_speed_mph of one row; a missing operand models the NaN that
fillna turns into 0. -/
def speedRow (r : TaxiRow) : ℤ × ℤ :=
  match r.trip_distance, r.trip_durationSec with
  | RVal.num dm, some ds => speedOf dm ds
  | _, _ => (0, 1)

/-- Comparison of the exact fraction n / d against an integer bound; the
denominator is positive wherever the source reaches the comparison (the
duration filter precedes it), and a non-positive denominator models the
non-finite float of a division by zero, every comparison with which is
false. -/
def fracLT (n d c : ℤ) : Bool := if 0 < d then decide (n < c * d) else false

def speedLT100 (v : Option (ℤ × ℤ)) : Bool :=
  match v with
  | some (n, d) => fracLT n d 100
  | none => false

/-- The numeric coercion pass of _clean_taxi_data, one column at a time,
each guarded by presence. -/
def coerceTaxiNums (t : TaxiTable) (r : TaxiRow) : TaxiRow :=
  { r with
    passenger_count := if t.has_passenger_count then to_numeric r.passenger_count else r.passenger_count,
    trip_distance := if t.has_trip_distance then to_numeric r.trip_distance else r.trip_distance,
    fare_amount := if t.has_fare_amount then to_numeric r.fare_amount else r.fare_amount,
    tip_amount := if t.has_tip_amount then to_numeric r.tip_amount else r.tip_amount,
    total_amount := if t.has_total_amount then to_numeric r.total_amount else r.total_amount }

/-- The datetime coercion pass, guarded by presence per column. -/
def coerceTaxiDates (t : TaxiTable) (r : TaxiRow) : TaxiRow :=
  { r with
    pickup_datetime := if t.has_pickup_datetime then to_datetime r.pickup_datetime else r.pickup_datetime,
    dropoff_datetime := if t.has_dropoff_datetime then to_datetime r.dropoff_datetime else r.dropoff_datetime }

/-- Writing the trip duration column. -/
def setDuration (r : TaxiRow) : TaxiRow := { r with trip_durationSec := durSecOf r }

/-- Writing the four calendar feature columns from the pickup. -/
def setCalendar (r : TaxiRow) : TaxiRow :=
  { r with pickup_hour := hourOfRT r.pickup_datetime,
           pickup_day := dayNameOfRT r.pickup_datetime,
           pickup_month := monthOfRT r.pickup_datetime,
           pickup_weekday := weekdayOfRT r.pickup_datetime }

/-- Writing the average speed column. -/
def setSpeed (r : TaxiRow) : TaxiRow := { r with avg_speed_mph := some (speedRow r) }

/-- Copying the zone identifier columns, each guarded by presence. -/
def setZones (t : TaxiTable) (r : TaxiRow) : TaxiRow :=
  { r with pickup_zone := if t.has_PULocationID then some r.PULocationID else r.pickup_zone,
           dropoff_zone := if t.has_DOLocationID then some r.DOLocationID else r.dropoff_zone }

/-- _clean_taxi_data of transportation_etl.py.  An empty frame returns
unchanged.  Numeric coercions and the passenger / distance / fare range
filters, the speed computation and the zone copies are each guarded by
column presence; the dropna on pickup_datetime and dropoff_datetime, the
duration computation and the calendar features are not guarded, and
pandas raises a KeyError when a dropna subset column is absent.  Scaled
thresholds: 10 passengers = 10000 milli, 100 miles = 100000 milli, 1000
dollars = 1000000 milli, 1440 minutes = 86400 seconds. -/
def clean_taxi_data (t : TaxiTable) : Except String TaxiTable :=
  if t.rows.isEmpty then Except.ok t
  else
    let r1 := t.rows.map (coerceTaxiNums t)
    let r2 := if t.has_passenger_count then
        (r1.filter (fun r => rGTz r.passenger_count 0)).filter (fun r => rLEz r.passenger_count 10000)
      else r1
    let r3 := if t.has_trip_distance then
        (r2.filter (fun r => rGTz r.trip_distance 0)).filter (fun r => rLTz r.trip_distance 100000)
      else r2
    let r4 := if t.has_fare_amount then
        (r3.filter (fun r => rGTz r.fare_amount 0)).filter (fun r => rLTz r.fare_amount 1000000)
      else r3
    let r5 := r4.map (coerceTaxiDates t)
    if t.has_pickup_datetime && t.has_dropoff_datetime then
      let r6 := r5.filter (fun r => isTs r.pickup_datetime && isTs r.dropoff_datetime)
      let r7 := r6.map setDuration
      let r8 := (r7.filter (fun r => oGTz r.trip_durationSec 0)).filter
        (fun r => oLTz r.trip_durationSec 86400)
      let r9 := r8.map setCalendar
      let r10 := if t.has_trip_distance then
          (r9.map setSpeed).filter (fun r => speedLT100 r.avg_speed_mph)
        else r9
      let r11 := r10.map (setZones t)
      Except.ok { t with rows := r11 }
    else
      Except.error "KeyError: dropna subset column not in index"

/-- One bikeshare record.  Coordinates, when numeric, are degrees in
ten-thousandths, the same scale as the merge engine. -/
structure BikeRow where
  STATION_NAME : Option String
  CITY : Option String
  LATITUDE : RVal
  LONGITUDE : RVal
  ASOFDATE : RTime
  YEAR : Option ℤ
  station_location : Option String
  year_category : Option String
deriving DecidableEq, Repr

structure BikeTable where
  hasSTATION_NAME : Bool
  hasCITY : Bool
  hasLATITUDE : Bool
  hasLONGITUDE : Bool
  hasASOFDATE : Bool
  hasYEAR : Bool
  rows : List BikeRow
deriving DecidableEq, Repr

/-- pandas Series.between with both ends included; NaN and text read as
NaN, whose comparisons are false. -/
def rBetween (v : RVal) (lo hi : ℤ) : Bool :=
  match v with
  | RVal.num q => decide (lo ≤ q) && decide (q ≤ hi)
  | _ => false

/-- Greater-or-equal of an optional year against a bound: a missing year
is the float NaN of pandas, and NaN compared with anything is false. -/
def oGEz (v : Option ℤ) (c : ℤ) : Bool :=
  match v with
  | some q => decide (c ≤ q)
  | none => false

/-- The year bucket lambda of _clean_bikeshare_data, evaluated with the
float comparison semantics of python: Recent when x is at least 2020,
else Historical when at least 2015, else Legacy. -/
def year_category_fn (x : Option ℤ) : String :=
  if oGEz x 2020 then "Recent" else if oGEz x 2015 then "Historical" else "Legacy"

/-- How a missing CITY prints inside the f-string of the label lambda. -/
def fmtOpt : Option String → String
  | some s => s
  | none => "nan"

/-- The station_location row lambda: reading a column the row does not
carry raises a KeyError; a missing station name yields Unknown without
touching CITY. -/
def station_loc (hasName hasCity : Bool) (r : BikeRow) : Except String String :=
  if hasName then
    match r.STATION_NAME with
    | some s => if hasCity then Except.ok (s ++ ", " ++ fmtOpt r.CITY) else Except.error "KeyError: CITY"
    | none => Except.ok "Unknown"
  else Except.error "KeyError: STATION_NAME"

/-- _clean_bikeshare_data of transportation_etl.py.  An empty frame
returns unchanged; coordinate coercion is guarded by column presence but
the between filter reads LATITUDE and LONGITUDE unguarded, raising a
KeyError when absent; the label lambda runs per row; the year bucket is
added only when YEAR is present.  Scaled bounds: latitude 40.5 to 41.0
degrees is 405000 to 410000, longitude -74.3 to -73.7 is -743000 to
-737000. -/
def clean_bikeshare_data (t : BikeTable) : Except String BikeTable :=
  if t.rows.isEmpty then Except.ok t
  else
    let r1 := t.rows.map (fun r =>
      { r with LATITUDE := if t.hasLATITUDE then to_numeric r.LATITUDE else r.LATITUDE,
               LONGITUDE := if t.hasLONGITUDE then to_numeric r.LONGITUDE else r.LONGITUDE })
    if t.hasLATITUDE && t.hasLONGITUDE then
      let r2 := r1.filter (fun r =>
        rBetween r.LATITUDE 405000 410000 && rBetween r.LONGITUDE (-743000) (-737000))
      let r3 := r2.map (fun r =>
        { r with ASOFDATE := if t.hasASOFDATE then to_datetime r.ASOFDATE else r.ASOFDATE })
      match exMap (fun r =>
          (station_loc t.hasSTATION_NAME t.hasCITY r).map
            (fun loc => { r with station_location := some loc })) r3 with
      | Except.error e => Except.error e
      | Except.ok r4 =>
          let r5 := if t.hasYEAR then
              r4.map (fun r => { r with year_category := some (year_category_fn r.YEAR) })
            else r4
          Except.ok { t with rows := r5 }
    else Except.error "KeyError: LATITUDE or LONGITUDE not in index"

/- ------------------------------------------------------------------ -/
/- Helper lemmas                                                       -/
/- ------------------------------------------------------------------ -/

theorem finalizeGeom_ok_mem {df out : DF} (h : finalizeGeom df = Except.ok out) :
    "geometry" ∈ out.cols := by
  unfold finalizeGeom at h
  by_cases hc : df.cols.contains "geometry"
  · rw [if_pos hc] at h
    cases h
    exact List.mem_of_elem_eq_true hc
  · rw [if_neg hc] at h
    cases h

theorem mergeStage_ok_mem {tcs : List String} {cleaned : List DF} {out : DF}
    (h : mergeStage tcs cleaned = Except.ok out) : "geometry" ∈ out.cols := by
  unfold mergeStage at h
  by_cases hk : (mergeCols tcs cleaned).isEmpty
  · rw [if_pos hk] at h
    cases cleaned with
    | nil => cases h
    | cons a l => exact finalizeGeom_ok_mem h
  · rw [if_neg hk] at h
    cases cleaned with
    | nil => cases h
    | cons a l => exact finalizeGeom_ok_mem h

/- ------------------------------------------------------------------ -/
/- C1                                                                  -/
/- ------------------------------------------------------------------ -/

/-- An input table with neither a geometry column nor a latitude-like or
longitude-like column pair: one subway-style row. -/
def noGeomInput : DF :=
  { cols := ["station_id", "entries"], crs := none,
    rows := [[("station_id", Value.num 101), ("entries", Value.num 5000)]] }

/-- C1: evaluating clean_and_merge_data at a SourceTable whose records
have no geometry shows the PlausibilityFilter stage is never reached with
those records passing through: reading the CRS (and then the geometry) of
the geometry-less GeoDataFrame raises AttributeError and the whole call
aborts, contradicting the claim that such records pass through unchanged
without raising. -/
theorem c1_geometryless_table_aborts :
    cleanAndMergeData [noGeomInput] "EPSG:4326" [] =
      Except.error "AttributeError: no active geometry column" := by decide

/- ------------------------------------------------------------------ -/
/- C2                                                                  -/
/- ------------------------------------------------------------------ -/

/-- C2 counterexample: on the totally empty input the source raises an
IndexError instead of returning an empty MergedTable: with no tables at
all every membership test is vacuously true, so merge_cols is non-empty
and cleaned_dfs[0] is evaluated on the empty list. -/
theorem c2_empty_input_raises_counterexample :
    cleanAndMergeData [] "EPSG:4326" [] =
      Except.error "IndexError: list index out of range" := by decide

/-- C2 amended: for every target CRS and every time-column list, the
totally empty input makes clean_and_merge_data raise IndexError; the core
does have a fatal error on empty input. -/
theorem c2_empty_input_raises (target : String) (tcs : List String) :
    cleanAndMergeData [] target tcs =
      Except.error "IndexError: list index out of range" := by
  have hne : ∀ l : List String, (l ++ ["geometry"]).isEmpty = false := by
    intro l
    cases l <;> rfl
  show mergeStage tcs [] = Except.error "IndexError: list index out of range"
  unfold mergeStage mergeCols
  simp [hne]

/- ------------------------------------------------------------------ -/
/- C3                                                                  -/
/- ------------------------------------------------------------------ -/

/-- A non-empty input list none of whose tables carries any geometry. -/
def plainTableInput : DF :=
  { cols := ["linename", "entry_count"], crs := none,
    rows := [[("linename", Value.str "A"), ("entry_count", Value.num 120)]] }

/-- C3 counterexample: a non-empty list of geometry-free input tables
makes clean_and_merge_data raise before any table is returned, so the
geometry-declaring concatenation output promised for that case never
exists. -/
theorem c3_no_geometry_concat_never_returns :
    cleanAndMergeData [plainTableInput] "EPSG:4326" [] =
      Except.error "AttributeError: no active geometry column" := by decide

/-- C3 amended: whenever clean_and_merge_data does return a table, that
table declares a geometry column; but a run in which no input carried
geometry never returns a table, because the geometry-less table aborts
the pipeline before the merge, so the concatenation branch without
geometry is unreachable. -/
theorem c3_returned_tables_declare_geometry (dfs : List DF) (target : String)
    (tcs : List String) (out : DF)
    (hok : cleanAndMergeData dfs target tcs = Except.ok out) :
    "geometry" ∈ out.cols := by
  unfold cleanAndMergeData at hok
  cases hex : exMap (cleanTable target tcs) dfs with
  | error e => rw [hex] at hok; cases hok
  | ok cleaned =>
      rw [hex] at hok
      exact mergeStage_ok_mem hok

/-- A well-formed single-table input whose row lies inside the bounding
box. -/
def inBoundsInput : DF :=
  { cols := ["lat", "lon"], crs := none,
    rows := [[("lat", Value.num 407500), ("lon", Value.num (-739800))]] }

/-- Witness for the amended C3 at a concrete run. -/
theorem c3_returned_tables_declare_geometry_witness :
    "geometry" ∈ (DF.mk ["lat", "lon", "geometry"] (some "EPSG:4326")
      [[("geometry", Value.pt (-739800) 407500),
        ("lat", Value.num 407500), ("lon", Value.num (-739800))]]).cols :=
  c3_returned_tables_declare_geometry [inBoundsInput] "EPSG:4326" [] _ (by decide)

/- ------------------------------------------------------------------ -/
/- C7                                                                  -/
/- ------------------------------------------------------------------ -/

/-- The out-of-bounds scenario row of the specification: latitude 41.5,
longitude -73.9, in ten-thousandths of a degree. -/
def outOfBoundsInput : DF :=
  { cols := ["lat", "lon"], crs := none,
    rows := [[("lat", Value.num 415000), ("lon", Value.num (-739000))]] }

/-- C7: every row surviving the PlausibilityFilter carries point geometry
inside the configured bounding box (latitude 40.4774 to 40.9176 degrees,
longitude -74.2591 to -73.7004 degrees, in ten-thousandths); every
geometry-bearing row outside the box is excluded; and the concrete
out-of-bounds scenario row (latitude 41.5, longitude -73.9) yields an
output with no rows. -/
theorem c7_plausibility_filter_bounds :
    (∀ df : DF, ∀ r ∈ (plausibilityFilter df).rows,
        ∃ lo la, getVal r "geometry" = Value.pt lo la ∧
          latLo ≤ la ∧ la ≤ latHi ∧ lonLo ≤ lo ∧ lo ≤ lonHi) ∧
    (∀ df : DF, ∀ r ∈ df.rows, ∀ lo la, getVal r "geometry" = Value.pt lo la →
        ¬(latLo ≤ la ∧ la ≤ latHi ∧ lonLo ≤ lo ∧ lo ≤ lonHi) →
        r ∉ (plausibilityFilter df).rows) ∧
    cleanAndMergeData [outOfBoundsInput] "EPSG:4326" [] =
      Except.ok { cols := ["lat", "lon", "geometry"], crs := some "EPSG:4326", rows := [] } := by
  refine ⟨?_, ?_, by decide⟩
  · intro df r hr
    rw [plausibilityFilter] at hr
    have hb := (List.mem_filter.mp hr).2
    unfold inBounds at hb
    split at hb
    · next lo la hg =>
        refine ⟨lo, la, hg, ?_⟩
        simp only [Bool.and_eq_true, decide_eq_true_eq] at hb
        exact ⟨hb.1.1.1, hb.1.1.2, hb.1.2, hb.2⟩
    · cases hb
  · intro df r hr lo la hg hout hmem
    rw [plausibilityFilter] at hmem
    have hb := (List.mem_filter.mp hmem).2
    unfold inBounds at hb
    rw [hg] at hb
    simp only [Bool.and_eq_true, decide_eq_true_eq] at hb
    exact hout ⟨hb.1.1.1, hb.1.1.2, hb.1.2, hb.2⟩

/-- Witness for C7 at concrete rows: the in-bounds row survives with its
coordinates bounded, and the out-of-bounds row of the scenario is not
among the survivors. -/
theorem c7_plausibility_filter_bounds_witness :
    (∃ lo la,
        getVal [("geometry", Value.pt (-739800) 407500)] "geometry" = Value.pt lo la ∧
          latLo ≤ la ∧ la ≤ latHi ∧ lonLo ≤ lo ∧ lo ≤ lonHi) ∧
    [("geometry", Value.pt (-739000) 415000)] ∉
      (plausibilityFilter (DF.mk ["geometry"] none
        [[("geometry", Value.pt (-739000) 415000)]])).rows :=
  ⟨c7_plausibility_filter_bounds.1
      (DF.mk ["geometry"] none [[("geometry", Value.pt (-739800) 407500)]]) _ (by decide),
    c7_plausibility_filter_bounds.2.1
      (DF.mk ["geometry"] none [[("geometry", Value.pt (-739000) 415000)]]) _
      (by decide) (-739000) 415000 (by decide) (by decide)⟩

/- ------------------------------------------------------------------ -/
/- C9                                                                  -/
/- ------------------------------------------------------------------ -/

/-- C9: the merge logic of clean_and_merge_data.  First, the key set
contains exactly the configured time columns present verbatim in every
cleaned table together with the geometry column when present in every
cleaned table.  Second, with a non-empty key set the stage is the
left-to-right fold of pairwise inner merges started at the first cleaned
table.  Third, one inner merge holds exactly the pairings of left and
right rows agreeing on every key, the right non-key cells renamed with
the literal _dup suffix on collision.  Fourth, with an empty key set the
stage concatenates, the concatenation has as many rows as the cleaned
inputs together, and declaring the geometry column of a table that has
one returns that table unchanged. -/
theorem c9_merge_engine_keys_join_concat :
    (∀ (tcs : List String) (cleaned : List DF) (c : String),
        c ∈ mergeCols tcs cleaned ↔
          (c ∈ tcs ∨ c = "geometry") ∧ ∀ t ∈ cleaned, c ∈ t.cols) ∧
    (∀ (tcs : List String) (t0 : DF) (rest : List DF),
        (mergeCols tcs (t0 :: rest)).isEmpty = false →
        mergeStage tcs (t0 :: rest) =
          finalizeGeom (rest.foldl (joinTables (mergeCols tcs (t0 :: rest))) t0)) ∧
    (∀ (keys : List String) (t1 t2 : DF) (r : Row),
        r ∈ (joinTables keys t1 t2).rows ↔
          ∃ r1 ∈ t1.rows, ∃ r2 ∈ t2.rows,
            (∀ k ∈ keys, getVal r1 k = getVal r2 k) ∧
            r = r1 ++ (r2.filter (fun p => keepRight keys p.1)).map
                  (fun p => (if t1.cols.contains p.1 then p.1 ++ "_dup" else p.1, p.2))) ∧
    (∀ (tcs : List String) (cleaned : List DF),
        cleaned ≠ [] → (mergeCols tcs cleaned).isEmpty = true →
        mergeStage tcs cleaned = finalizeGeom (concatTables cleaned)) ∧
    (∀ l : List DF, (concatTables l).rows.length = (l.map (fun t => t.rows.length)).sum) ∧
    (∀ df : DF, "geometry" ∈ df.cols → finalizeGeom df = Except.ok df) := by
  refine ⟨?_, ?_, ?_, ?_, ?_, ?_⟩
  · intro tcs cleaned c
    by_cases hcond : cleaned.all (fun t => t.cols.contains "geometry") = true
    · unfold mergeCols
      rw [if_pos hcond]
      simp only [List.mem_append, List.mem_filter, List.mem_singleton,
        List.all_eq_true, List.elem_iff]
      constructor
      · rintro (⟨hc, hall⟩ | rfl)
        · exact ⟨Or.inl hc, hall⟩
        · refine ⟨Or.inr rfl, ?_⟩
          intro t ht
          exact List.elem_iff.mp (List.all_eq_true.mp hcond t ht)
      · rintro ⟨hc | rfl, hall⟩
        · exact Or.inl ⟨hc, hall⟩
        · exact Or.inr rfl
    · unfold mergeCols
      rw [if_neg hcond]
      simp only [List.append_nil, List.mem_filter, List.all_eq_true, List.elem_iff]
      constructor
      · rintro ⟨hc, hall⟩
        exact ⟨Or.inl hc, hall⟩
      · rintro ⟨hc | rfl, hall⟩
        · exact ⟨hc, hall⟩
        · exact absurd (List.all_eq_true.mpr (fun t ht => List.elem_iff.mpr (hall t ht))) hcond
  · intro tcs t0 rest hne
    unfold mergeStage
    simp [hne]
  · intro keys t1 t2 r
    simp only [joinTables, List.mem_flatMap, List.mem_map, List.mem_filter,
      List.all_eq_true, beq_iff_eq]
    constructor
    · rintro ⟨r1, h1, r2, ⟨h2, hk⟩, hr⟩
      exact ⟨r1, h1, r2, h2, hk, hr.symm⟩
    · rintro ⟨r1, h1, r2, h2, hk, hr⟩
      exact ⟨r1, h1, r2, ⟨h2, hk⟩, hr.symm⟩
  · intro tcs cleaned hne hk
    unfold mergeStage
    cases cleaned with
    | nil => exact absurd rfl hne
    | cons a l => simp [hk]
  · intro l
    show (l.flatMap DF.rows).length = _
    rw [List.length_flatMap]
    rfl
  · intro df hg
    unfold finalizeGeom
    rw [if_pos (List.elem_iff.mpr hg)]

/-- Witness for C9 at a concrete merge: two one-row tables sharing only
the geometry key produce exactly their pairing, with the colliding
non-key label of the right table renamed with the _dup suffix. -/
theorem c9_merge_engine_keys_join_concat_witness :
    [("geometry", Value.pt (-739800) 407500), ("fare", Value.num 12500),
     ("fare_dup", Value.num 9000)] ∈
      (joinTables ["geometry"]
        (DF.mk ["geometry", "fare"] (some "EPSG:4326")
          [[("geometry", Value.pt (-739800) 407500), ("fare", Value.num 12500)]])
        (DF.mk ["geometry", "fare"] (some "EPSG:4326")
          [[("geometry", Value.pt (-739800) 407500), ("fare", Value.num 9000)]])).rows :=
  (c9_merge_engine_keys_join_concat.2.2.1 ["geometry"] _ _ _).mpr
    ⟨[("geometry", Value.pt (-739800) 407500), ("fare", Value.num 12500)], by decide,
     [("geometry", Value.pt (-739800) 407500), ("fare", Value.num 9000)], by decide,
     by decide, by decide⟩

/- ------------------------------------------------------------------ -/
/- Association-list lemmas                                             -/
/- ------------------------------------------------------------------ -/

theorem lookup_filterKey_ne {t : Row} {b c : String} (h : b ≠ c) :
    (t.filter (fun p => p.1 != c)).lookup b = t.lookup b := by
  induction t with
  | nil => rfl
  | cons p l ih =>
      rcases p with ⟨k, v⟩
      by_cases hk : k = c
      · subst hk
        have hbk : (b == k) = false := by simp [h]
        simp [List.filter_cons, List.lookup_cons, hbk, ih]
      · have hkc : (k != c) = true := by simp [hk]
        simp only [List.filter_cons, hkc, if_true, List.lookup_cons, ih]

theorem lookup_updCol_self (r : Row) (c : String) (v : Value) :
    (updCol r c v).lookup c = some v := by
  simp [updCol, List.lookup_cons]

theorem lookup_updCol_ne {r : Row} {b c : String} (v : Value) (h : b ≠ c) :
    (updCol r c v).lookup b = r.lookup b := by
  have hbc : (b == c) = false := by simp [h]
  simp [updCol, List.lookup_cons, hbc, lookup_filterKey_ne h]

theorem getVal_updCol_self (r : Row) (c : String) (v : Value) :
    getVal (updCol r c v) c = v := by
  simp [getVal, lookup_updCol_self]

theorem mem_updCol {p : String × Value} {r : Row} {c : String} {v : Value}
    (h : p ∈ updCol r c v) : p = (c, v) ∨ (p ∈ r ∧ p.1 ≠ c) := by
  rcases List.mem_cons.mp h with h1 | h2
  · exact Or.inl h1
  · have h3 := List.mem_filter.mp h2
    refine Or.inr ⟨h3.1, ?_⟩
    simpa using h3.2

/-- The localisation or conversion branch only ever writes a tz-aware
UTC value or NaT. -/
theorem branch_utc_or_null (b : Bool) (v : Value) :
    (∃ m, (if b then localizeNYtoUTC else convertUTC) v = Value.utc m) ∨
      (if b then localizeNYtoUTC else convertUTC) v = Value.null := by
  cases b
  · cases v <;> simp [convertUTC]
  · cases v with
    | naive m =>
        cases h : nyLocalToUtc m <;> simp [localizeNYtoUTC, h]
    | pt lo la => simp [localizeNYtoUTC]
    | utc m => simp [localizeNYtoUTC]
    | num q => simp [localizeNYtoUTC]
    | str s => simp [localizeNYtoUTC]
    | null => simp [localizeNYtoUTC]

/- ------------------------------------------------------------------ -/
/- Time-normaliser invariants                                          -/
/- ------------------------------------------------------------------ -/

/-- The row fact established for one processed time column: the column
reads as a tz-aware UTC value and every binding of the label carries that
value. -/
def utcAt (tc : String) (r : Row) : Prop :=
  ∃ m, r.lookup tc = some (Value.utc m) ∧ ∀ p ∈ r, p.1 = tc → p.2 = Value.utc m

theorem timeNormalizeCol_cols (df : DF) (tc : String) :
    (timeNormalizeCol df tc).cols = df.cols := by
  unfold timeNormalizeCol
  split <;> rfl

theorem timeNormalizeCol_mem {df : DF} {tc : String} {r : Row}
    (hc : df.cols.contains tc = true)
    (hr : r ∈ (timeNormalizeCol df tc).rows) :
    ∃ r0 ∈ df.rows,
      r = convRow (colNaiveAt (df.rows.map (parseRow tc)) tc) tc (parseRow tc r0) ∧
      notNull (getVal r tc) = true := by
  simp only [timeNormalizeCol, hc, if_true] at hr
  have h1 := List.mem_filter.mp hr
  rcases List.mem_map.mp h1.1 with ⟨r1, hr1, hconv⟩
  rcases List.mem_map.mp hr1 with ⟨r0, hr0, hparse⟩
  refine ⟨r0, hr0, ?_, h1.2⟩
  rw [← hconv, ← hparse]

theorem timeNormalizeCol_utcAt_self {df : DF} {tc : String}
    (hc : df.cols.contains tc = true) :
    ∀ r ∈ (timeNormalizeCol df tc).rows, utcAt tc r := by
  intro r hr
  obtain ⟨r0, hr0, heq, hnn⟩ := timeNormalizeCol_mem hc hr
  rcases branch_utc_or_null (colNaiveAt (df.rows.map (parseRow tc)) tc)
      (getVal (parseRow tc r0) tc) with ⟨m, hm⟩ | hnull
  · refine ⟨m, ?_, ?_⟩
    · rw [heq]
      unfold convRow
      rw [lookup_updCol_self, hm]
    · intro p hp hptc
      rw [heq] at hp
      unfold convRow at hp
      rcases mem_updCol hp with h1 | h2
      · rw [h1]
        exact hm
      · exact absurd hptc h2.2
  · exfalso
    rw [heq] at hnn
    unfold convRow at hnn
    rw [getVal_updCol_self, hnull] at hnn
    simp [notNull] at hnn

theorem timeNormalizeCol_preserve {df : DF} {tc a : String} (hne : a ≠ tc) :
    ∀ r ∈ (timeNormalizeCol df tc).rows,
      ∃ r0 ∈ df.rows, r.lookup a = r0.lookup a ∧ ∀ p ∈ r, p.1 = a → p ∈ r0 := by
  intro r hr
  by_cases hc : df.cols.contains tc = true
  · obtain ⟨r0, hr0, heq, -⟩ := timeNormalizeCol_mem hc hr
    refine ⟨r0, hr0, ?_, ?_⟩
    · rw [heq]
      unfold convRow parseRow
      rw [lookup_updCol_ne _ hne, lookup_updCol_ne _ hne]
    · intro p hp hpa
      rw [heq] at hp
      unfold convRow at hp
      rcases mem_updCol hp with h1 | h2
      · exfalso
        rw [h1] at hpa
        exact hne hpa.symm
      · unfold parseRow at h2
        rcases mem_updCol h2.1 with h3 | h4
        · exfalso
          rw [h3] at hpa
          exact hne hpa.symm
        · exact h4.1
  · unfold timeNormalizeCol at hr
    rw [if_neg hc] at hr
    exact ⟨r, hr, rfl, fun p hp _ => hp⟩

theorem timeNormalizeCol_utcAt_preserve {df : DF} {tc a : String}
    (hall : ∀ r0 ∈ df.rows, utcAt a r0) :
    ∀ r ∈ (timeNormalizeCol df tc).rows, utcAt a r := by
  by_cases hat : a = tc
  · subst hat
    by_cases hc : df.cols.contains a = true
    · exact timeNormalizeCol_utcAt_self hc
    · unfold timeNormalizeCol
      rw [if_neg hc]
      exact hall
  · intro r hr
    obtain ⟨r0, hr0, hlook, hsub⟩ := timeNormalizeCol_preserve hat r hr
    obtain ⟨m, hm1, hm2⟩ := hall r0 hr0
    exact ⟨m, by rw [hlook, hm1], fun p hp hpa => hm2 p (hsub p hp hpa) hpa⟩

theorem normalizeTimes_utcAt_preserve {a : String} (tcs : List String) :
    ∀ df : DF, (∀ r0 ∈ df.rows, utcAt a r0) →
      ∀ r ∈ (normalizeTimes tcs df).rows, utcAt a r := by
  induction tcs with
  | nil => intro df hall; exact hall
  | cons b rest ih =>
      intro df hall
      exact ih (timeNormalizeCol df b) (timeNormalizeCol_utcAt_preserve hall)

theorem normalizeTimes_utcAt_processed (tcs : List String) :
    ∀ (df : DF) (tc : String), tc ∈ tcs → tc ∈ df.cols →
      ∀ r ∈ (normalizeTimes tcs df).rows, utcAt tc r := by
  induction tcs with
  | nil => intro df tc htc; cases htc
  | cons b rest ih =>
      intro df tc htc hcol
      by_cases hbt : tc = b
      · subst hbt
        have hc : df.cols.contains tc = true := List.elem_iff.mpr hcol
        exact normalizeTimes_utcAt_preserve rest (timeNormalizeCol df tc)
          (timeNormalizeCol_utcAt_self hc)
      · have htc2 : tc ∈ rest := by
          rcases List.mem_cons.mp htc with h | h
          · exact absurd h hbt
          · exact h
        have hcol2 : tc ∈ (timeNormalizeCol df b).cols := by
          rw [timeNormalizeCol_cols]
          exact hcol
        exact ih (timeNormalizeCol df b) tc htc2 hcol2

theorem timeNormalizeCol_nokey {df : DF} {tc a : String}
    (hnone : ∀ r0 ∈ df.rows, ∀ p ∈ r0, p.1 ≠ a)
    (ha : df.cols.contains a = false) :
    ∀ r ∈ (timeNormalizeCol df tc).rows, ∀ p ∈ r, p.1 ≠ a := by
  by_cases hat : a = tc
  · subst hat
    unfold timeNormalizeCol
    rw [if_neg (by rw [ha]; simp)]
    exact hnone
  · intro r hr
    obtain ⟨r0, hr0, -, hsub⟩ := timeNormalizeCol_preserve hat r hr
    intro p hp hpa
    exact hnone r0 hr0 p (hsub p hp hpa) hpa

theorem normalizeTimes_nokey {a : String} (tcs : List String) :
    ∀ df : DF, (∀ r0 ∈ df.rows, ∀ p ∈ r0, p.1 ≠ a) → df.cols.contains a = false →
      ∀ r ∈ (normalizeTimes tcs df).rows, ∀ p ∈ r, p.1 ≠ a := by
  induction tcs with
  | nil => intro df h _; exact h
  | cons b rest ih =>
      intro df h ha
      refine ih (timeNormalizeCol df b) (timeNormalizeCol_nokey h ha) ?_
      rw [timeNormalizeCol_cols]
      exact ha

/- ------------------------------------------------------------------ -/
/- Pipeline-level well-formedness and UTC invariants                   -/
/- ------------------------------------------------------------------ -/

/-- A pandas frame is well formed: every binding of every row belongs to
a declared column. -/
abbrev RowsWF (df : DF) : Prop := ∀ r ∈ df.rows, ∀ p ∈ r, p.1 ∈ df.cols

/-- Every binding of the row labelled by a configured time column holds a
tz-aware UTC value. -/
abbrev BProp (tcs : List String) (r : Row) : Prop :=
  ∀ p ∈ r, p.1 ∈ tcs → ∃ m, p.2 = Value.utc m

theorem geomResolve_wf {df g : DF} (hwf : RowsWF df) (h : geomResolve df = Except.ok g) :
    RowsWF g := by
  unfold geomResolve at h
  by_cases hc : df.cols.contains "geometry" = true
  · rw [if_pos hc] at h
    injection h with h2
    subst h2
    exact hwf
  · rw [if_neg hc] at h
    split at h
    · next latc lrest lonc lorest hlat hlon =>
        split at h
        · next hall =>
            injection h with h2
            subst h2
            intro r hr p hp
            simp only [List.mem_filterMap] at hr
            obtain ⟨r0, hr0, hpt⟩ := hr
            unfold rowPoint at hpt
            split at hpt
            · next lo la hlo hla =>
                injection hpt with h3
                subst h3
                rcases List.mem_cons.mp hp with h4 | h5
                · rw [h4]
                  exact List.mem_append_right _ (List.mem_singleton.mpr rfl)
                · have hr0m : r0 ∈ df.rows := (List.mem_filter.mp hr0).1
                  exact List.mem_append_left _ (hwf r0 hr0m p h5)
            · cases hpt
        · cases h
    · next =>
        injection h with h2
        subst h2
        exact hwf

theorem crsNormalize_ok {target : String} {g g2 : DF}
    (h : crsNormalize target g = Except.ok g2) : g2.rows = g.rows ∧ g2.cols = g.cols := by
  unfold crsNormalize at h
  by_cases hc : g.cols.contains "geometry" = true
  · rw [if_pos hc] at h
    injection h with h2
    subst h2
    exact ⟨rfl, rfl⟩
  · rw [if_neg hc] at h
    cases h

theorem cleanTable_BProp {target : String} {tcs : List String} {df t : DF}
    (hwf : RowsWF df) (hok : cleanTable target tcs df = Except.ok t) :
    ∀ r ∈ t.rows, BProp tcs r := by
  unfold cleanTable at hok
  cases hg : geomResolve df with
  | error e => rw [hg] at hok; cases hok
  | ok g =>
      rw [hg] at hok
      replace hok : (match crsNormalize target g with
          | Except.error e => Except.error e
          | Except.ok g2 =>
              Except.ok (normalizeTimes tcs (plausibilityFilter g2))) = Except.ok t := hok
      cases hc : crsNormalize target g with
      | error e => rw [hc] at hok; cases hok
      | ok g2 =>
          rw [hc] at hok
          injection hok with h2
          subst h2
          intro r hr p hp hptc
          have hwf2 : RowsWF g := geomResolve_wf hwf hg
          have hg2 := crsNormalize_ok hc
          by_cases hcol : p.1 ∈ (plausibilityFilter g2).cols
          · obtain ⟨m, -, hm2⟩ :=
              normalizeTimes_utcAt_processed tcs (plausibilityFilter g2) p.1 hptc hcol r hr
            exact ⟨m, hm2 p hp rfl⟩
          · exfalso
            have hnone : ∀ r0 ∈ (plausibilityFilter g2).rows, ∀ q ∈ r0, q.1 ≠ p.1 := by
              intro r0 hr0 q hq hq1
              have hr0g : r0 ∈ g.rows := by
                have hx := (List.mem_filter.mp hr0).1
                rw [hg2.1] at hx
                exact hx
              apply hcol
              show p.1 ∈ g2.cols
              rw [hg2.2]
              rw [← hq1]
              exact hwf2 r0 hr0g q hq
            have hcontains : (plausibilityFilter g2).cols.contains p.1 = false := by
              cases hcb : (plausibilityFilter g2).cols.contains p.1
              · rfl
              · exact absurd (List.elem_iff.mp hcb) hcol
            exact normalizeTimes_nokey tcs (plausibilityFilter g2) hnone hcontains r hr p hp rfl

/-- Inner-merge row membership: exactly the pairings of left and right
rows that agree on every key, the right non-key cells renamed with the
literal _dup suffix on collision with a left label. -/
theorem mem_joinTables_rows {keys : List String} {t1 t2 : DF} {r : Row} :
    r ∈ (joinTables keys t1 t2).rows ↔
      ∃ r1 ∈ t1.rows, ∃ r2 ∈ t2.rows,
        (∀ k ∈ keys, getVal r1 k = getVal r2 k) ∧
        r = r1 ++ (r2.filter (fun p => keepRight keys p.1)).map
              (fun p => (if t1.cols.contains p.1 then p.1 ++ "_dup" else p.1, p.2)) := by
  simp only [joinTables, List.mem_flatMap, List.mem_map, List.mem_filter,
    List.all_eq_true, beq_iff_eq]
  constructor
  · rintro ⟨r1, h1, r2, ⟨h2, hk⟩, hr⟩
    exact ⟨r1, h1, r2, h2, hk, hr.symm⟩
  · rintro ⟨r1, h1, r2, h2, hk, hr⟩
    exact ⟨r1, h1, r2, ⟨h2, hk⟩, hr.symm⟩

theorem joinTables_BProp {tcs keys : List String} {t1 t2 : DF}
    (hnd : ∀ tc ∈ tcs, ∀ c : String, tc ≠ c ++ "_dup")
    (h1 : ∀ r ∈ t1.rows, BProp tcs r) (h2 : ∀ r ∈ t2.rows, BProp tcs r) :
    ∀ r ∈ (joinTables keys t1 t2).rows, BProp tcs r := by
  intro r hr p hp hptc
  obtain ⟨r1, hr1, r2, hr2, -, hre⟩ := mem_joinTables_rows.mp hr
  rw [hre] at hp
  rcases List.mem_append.mp hp with hl | hrgt
  · exact h1 r1 hr1 p hl hptc
  · rcases List.mem_map.mp hrgt with ⟨q, hq, hpq⟩
    have hq2 : q ∈ r2 := (List.mem_filter.mp hq).1
    by_cases hcc : t1.cols.contains q.1 = true
    · exfalso
      rw [← hpq, if_pos hcc] at hptc
      exact hnd _ hptc q.1 rfl
    · rw [← hpq, if_neg hcc] at hptc
      obtain ⟨m, hm⟩ := h2 r2 hr2 q hq2 hptc
      exact ⟨m, by rw [← hpq]; exact hm⟩

theorem concatTables_BProp {tcs : List String} {l : List DF}
    (h : ∀ t ∈ l, ∀ r ∈ t.rows, BProp tcs r) :
    ∀ r ∈ (concatTables l).rows, BProp tcs r := by
  intro r hr
  simp only [concatTables, List.mem_flatMap] at hr
  obtain ⟨t, ht, hrt⟩ := hr
  exact h t ht r hrt

theorem foldl_join_BProp {tcs keys : List String}
    (hnd : ∀ tc ∈ tcs, ∀ c : String, tc ≠ c ++ "_dup") :
    ∀ (rest : List DF) (t0 : DF),
      (∀ r ∈ t0.rows, BProp tcs r) → (∀ t ∈ rest, ∀ r ∈ t.rows, BProp tcs r) →
      ∀ r ∈ (rest.foldl (joinTables keys) t0).rows, BProp tcs r := by
  intro rest
  induction rest with
  | nil => intro t0 h0 _; exact h0
  | cons t rest2 ih =>
      intro t0 h0 hall
      exact ih (joinTables keys t0 t)
        (joinTables_BProp hnd h0 (hall t (List.mem_cons_self t rest2)))
        (fun t2 ht2 => hall t2 (List.mem_cons_of_mem t ht2))

theorem finalizeGeom_ok_eq {df out : DF} (h : finalizeGeom df = Except.ok out) :
    out = df := by
  unfold finalizeGeom at h
  by_cases hc : df.cols.contains "geometry" = true
  · rw [if_pos hc] at h
    injection h with h2
    exact h2.symm
  · rw [if_neg hc] at h
    cases h

theorem mergeStage_BProp {tcs : List String} {cleaned : List DF} {out : DF}
    (hnd : ∀ tc ∈ tcs, ∀ c : String, tc ≠ c ++ "_dup")
    (hall : ∀ t ∈ cleaned, ∀ r ∈ t.rows, BProp tcs r)
    (hok : mergeStage tcs cleaned = Except.ok out) :
    ∀ r ∈ out.rows, BProp tcs r := by
  unfold mergeStage at hok
  by_cases hk : (mergeCols tcs cleaned).isEmpty = true
  · rw [if_pos hk] at hok
    cases cleaned with
    | nil => cases hok
    | cons a l =>
        rw [finalizeGeom_ok_eq hok]
        exact concatTables_BProp hall
  · rw [if_neg hk] at hok
    cases cleaned with
    | nil => cases hok
    | cons a l =>
        rw [finalizeGeom_ok_eq hok]
        exact foldl_join_BProp hnd l a (hall a (List.mem_cons_self a l))
          (fun t2 ht2 => hall t2 (List.mem_cons_of_mem a ht2))

theorem exMap_ok_mem {α β : Type} {f : α → Except String β} :
    ∀ {l : List α} {l2 : List β}, exMap f l = Except.ok l2 →
      ∀ b ∈ l2, ∃ a ∈ l, f a = Except.ok b := by
  intro l
  induction l with
  | nil =>
      intro l2 h b hb
      unfold exMap at h
      injection h with h2
      subst h2
      cases hb
  | cons a t ih =>
      intro l2 h b hb
      unfold exMap at h
      cases hfa : f a with
      | error e => rw [hfa] at h; cases h
      | ok b0 =>
          rw [hfa] at h
          cases hrec : exMap f t with
          | error e => rw [hrec] at h; cases h
          | ok l3 =>
              rw [hrec] at h
              injection h with h2
              subst h2
              rcases List.mem_cons.mp hb with h3 | h4
              · subst h3
                exact ⟨a, List.mem_cons_self a t, hfa⟩
              · obtain ⟨a2, ha2, h5⟩ := ih hrec b h4
                exact ⟨a2, List.mem_cons_of_mem a ha2, h5⟩

/-- Suffix discrimination: a string whose last character is not p never
equals any string extended with the literal _dup suffix. -/
theorem ne_append_dup_of_last {s : String} (h : s.data.getLast? ≠ some (Char.ofNat 112)) :
    ∀ c : String, s ≠ c ++ "_dup" := by
  intro c hc
  apply h
  rw [hc, String.data_append c "_dup",
    List.getLast?_append_of_ne_nil c.data (by decide)]
  decide

/- ------------------------------------------------------------------ -/
/- C5                                                                  -/
/- ------------------------------------------------------------------ -/

/-- C5: unparseable values parse to NaT; a naive local time the
New York localisation cannot place (ambiguous or nonexistent) resolves
to NaT, never to a guessed UTC value; the 2024-11-03 01:30 fall-back
instant (minute 442170 of 2024) is such a time; the column passes run in
sequence, each starting from the survivors of the previous one; and every
record surviving the whole normalisation carries a tz-aware UTC value in
every configured column the table has, so a record whose cell resolved to
NaT is excluded outright. -/
theorem c5_time_normalizer_exclusion (df : DF) (tcs : List String) :
    (∀ r ∈ (normalizeTimes tcs df).rows, ∀ tc ∈ tcs, tc ∈ df.cols →
        ∃ m, r.lookup tc = some (Value.utc m)) ∧
    (∀ s, parseTime (Value.str s) = Value.null) ∧
    (∀ m, nyLocalToUtc m = none → localizeNYtoUTC (Value.naive m) = Value.null) ∧
    nyLocalToUtc (307 * 1440 + 90) = none ∧
    (∀ (d : DF) (tc : String) (rest : List String),
        normalizeTimes (tc :: rest) d = normalizeTimes rest (timeNormalizeCol d tc)) := by
  refine ⟨?_, fun s => rfl, ?_, by decide, fun d tc rest => rfl⟩
  · intro r hr tc htc hcol
    obtain ⟨m, hm, -⟩ :=
      normalizeTimes_utcAt_processed tcs df tc htc hcol r hr
    exact ⟨m, hm⟩
  · intro m hm
    simp [localizeNYtoUTC, hm]

/-- A table with a single naive timestamp column. -/
def oneTimeColInput : DF :=
  { cols := ["t"], crs := none, rows := [[("t", Value.naive 100)]] }

/-- Witness for C5 at a concrete run: minute 100 of 2024 is EST, so the
survivor of the normalisation carries its UTC value 400. -/
theorem c5_time_normalizer_exclusion_witness :
    ∃ m, ([("t", Value.utc 400)] : Row).lookup "t" = some (Value.utc m) :=
  (c5_time_normalizer_exclusion oneTimeColInput ["t"]).1
    [("t", Value.utc 400)] (by decide) "t" (by decide) (by decide)

/- ------------------------------------------------------------------ -/
/- C6                                                                  -/
/- ------------------------------------------------------------------ -/

/-- The scenario row of the specification: latitude 40.75, longitude
-73.98, pickup 2024-06-01 08:00 naive local time, which is minute
219360 of 2024. -/
def scenarioInput : DF :=
  { cols := ["lat", "lon", "pickup_datetime"], crs := none,
    rows := [[("lat", Value.num 407500), ("lon", Value.num (-739800)),
              ("pickup_datetime", Value.naive 219360)]] }

/-- The computed scenario output: geometry point (-73.98, 40.75) and
pickup 2024-06-01 12:00 UTC, which is minute 219600. -/
def scenarioOutput : DF :=
  { cols := ["lat", "lon", "pickup_datetime", "geometry"], crs := some "EPSG:4326",
    rows := [[("pickup_datetime", Value.utc 219600),
              ("geometry", Value.pt (-739800) 407500),
              ("lat", Value.num 407500), ("lon", Value.num (-739800))]] }

/-- C6: a parseable tz-naive timestamp is localised as America/New_York
and converted to exactly its UTC instant; the concrete scenario row with
latitude 40.75, longitude -73.98 and naive pickup 2024-06-01 08:00 yields
geometry (-73.98, 40.75) and pickup 2024-06-01T12:00:00Z; and on every
successful run over well-formed inputs whose configured time-column names
do not end in the merge suffix _dup, every output cell of a configured
time column is a tz-aware UTC value. -/
theorem c6_naive_times_become_utc :
    (∀ m u, nyLocalToUtc m = some u → localizeNYtoUTC (Value.naive m) = Value.utc u) ∧
    cleanAndMergeData [scenarioInput] "EPSG:4326" ["pickup_datetime"] =
      Except.ok scenarioOutput ∧
    (∀ (dfs : List DF) (target : String) (tcs : List String) (out : DF),
        (∀ df ∈ dfs, RowsWF df) →
        (∀ tc ∈ tcs, ∀ c : String, tc ≠ c ++ "_dup") →
        cleanAndMergeData dfs target tcs = Except.ok out →
        ∀ r ∈ out.rows, ∀ p ∈ r, p.1 ∈ tcs → ∃ m, p.2 = Value.utc m) := by
  refine ⟨?_, by decide, ?_⟩
  · intro m u hm
    simp [localizeNYtoUTC, hm]
  · intro dfs target tcs out hwf hnd hok r hr p hp hptc
    unfold cleanAndMergeData at hok
    cases hex : exMap (cleanTable target tcs) dfs with
    | error e => rw [hex] at hok; cases hok
    | ok cleaned =>
        rw [hex] at hok
        have hall : ∀ t ∈ cleaned, ∀ r2 ∈ t.rows, BProp tcs r2 := by
          intro t ht
          obtain ⟨df0, hdf0, hct⟩ := exMap_ok_mem hex t ht
          exact cleanTable_BProp (hwf df0 hdf0) hct
        exact mergeStage_BProp hnd hall hok r hr p hp hptc

/-- Witness for C6 at the scenario run itself: the pickup cell of the
output row is a tz-aware UTC value. -/
theorem c6_naive_times_become_utc_witness :
    ∃ m, (("pickup_datetime", Value.utc 219600) : String × Value).2 = Value.utc m :=
  c6_naive_times_become_utc.2.2 [scenarioInput] "EPSG:4326" ["pickup_datetime"]
    scenarioOutput (by decide)
    (fun tc htc c => by
      rw [List.mem_singleton.mp htc]
      exact ne_append_dup_of_last (by decide) c)
    (by decide)
    [("pickup_datetime", Value.utc 219600), ("geometry", Value.pt (-739800) 407500),
     ("lat", Value.num 407500), ("lon", Value.num (-739800))] (by decide)
    ("pickup_datetime", Value.utc 219600) (by decide) (by decide)

/- ------------------------------------------------------------------ -/
/- ETL helper lemmas                                                   -/
/- ------------------------------------------------------------------ -/

theorem exMap_ok_total {α β : Type} {f : α → Except String β} :
    ∀ l : List α, (∀ a ∈ l, ∃ b, f a = Except.ok b) → ∃ l2, exMap f l = Except.ok l2 := by
  intro l
  induction l with
  | nil => intro _; exact ⟨[], rfl⟩
  | cons a t ih =>
      intro h
      obtain ⟨b, hb⟩ := h a (List.mem_cons_self a t)
      obtain ⟨l2, hl2⟩ := ih (fun x hx => h x (List.mem_cons_of_mem a hx))
      refine ⟨b :: l2, ?_⟩
      unfold exMap
      rw [hb, hl2]

theorem rGTz_num {v : RVal} {c : ℤ} (h : rGTz v c = true) :
    ∃ q, v = RVal.num q ∧ c < q := by
  cases v with
  | num q => exact ⟨q, rfl, by simpa [rGTz] using h⟩
  | txt s => simp [rGTz] at h
  | null => simp [rGTz] at h

theorem rLEz_num {q c : ℤ} (h : rLEz (RVal.num q) c = true) : q ≤ c := by
  simpa [rLEz] using h

theorem rLTz_num {q c : ℤ} (h : rLTz (RVal.num q) c = true) : q < c := by
  simpa [rLTz] using h

theorem oGTz_some {q c : ℤ} (h : oGTz (some q) c = true) : c < q := by
  simpa [oGTz] using h

theorem oLTz_some {q c : ℤ} (h : oLTz (some q) c = true) : q < c := by
  simpa [oLTz] using h

theorem isTs_ts {v : RTime} (h : isTs v = true) : ∃ p, v = RTime.ts p := by
  cases v with
  | ts p => exact ⟨p, rfl⟩
  | txt s => simp [isTs] at h
  | null => simp [isTs] at h

theorem to_datetime_ts {x : RTime} {p : ℤ} (h : to_datetime x = RTime.ts p) :
    x = RTime.ts p := by
  cases x with
  | ts s => simpa [to_datetime] using h
  | txt s => simp [to_datetime] at h
  | null => simp [to_datetime] at h

theorem fracLT_pos {n dd c : ℤ} (hd : 0 < dd) (h : fracLT n dd c = true) : n < c * dd := by
  simpa [fracLT, hd] using h

/- ------------------------------------------------------------------ -/
/- C8                                                                  -/
/- ------------------------------------------------------------------ -/

/-- C8: with the five relevant columns present, every row surviving the
taxi sanitizer has passenger_count in (0, 10], trip_distance in (0, 100)
miles, fare_amount in (0, 1000) dollars (all in milli-units, so 10000,
100000 and 1000000), parsed pickup and dropoff timestamps, a
trip_duration equal to dropoff minus pickup (held in seconds, the source
float being the same quantity in minutes) inside (0, 1440) minutes, that
is (0, 86400) seconds, and an avg_speed_mph equal to the exact fraction
trip_distance / (trip_duration / 60) = (3600 dm) / (1000 ds), below 100,
stated by cross-multiplication against the positive denominator. -/
theorem c8_taxi_row_invariants (t : TaxiTable)
    (hpc : t.has_passenger_count = true) (hd : t.has_trip_distance = true)
    (hf : t.has_fare_amount = true) (hpu : t.has_pickup_datetime = true)
    (hdo : t.has_dropoff_datetime = true)
    (out : TaxiTable) (hok : clean_taxi_data t = Except.ok out) :
    ∀ r ∈ out.rows,
      ∃ pc dm fm p d,
        r.passenger_count = RVal.num pc ∧ 0 < pc ∧ pc ≤ 10000 ∧
        r.trip_distance = RVal.num dm ∧ 0 < dm ∧ dm < 100000 ∧
        r.fare_amount = RVal.num fm ∧ 0 < fm ∧ fm < 1000000 ∧
        r.pickup_datetime = RTime.ts p ∧ r.dropoff_datetime = RTime.ts d ∧
        r.trip_durationSec = some (d - p) ∧ 0 < d - p ∧ d - p < 86400 ∧
        r.avg_speed_mph = some (3600 * dm, 1000 * (d - p)) ∧
        3600 * dm < 100 * (1000 * (d - p)) := by
  unfold clean_taxi_data at hok
  by_cases he : t.rows.isEmpty = true
  · rw [if_pos he] at hok
    injection hok with h2
    subst h2
    intro r hr
    rw [List.isEmpty_iff.mp he] at hr
    cases hr
  · rw [if_neg he] at hok
    rw [hpc, hd, hf, hpu, hdo] at hok
    simp only [if_true, Bool.and_self, Except.ok.injEq] at hok
    subst hok
    intro r hr
    obtain ⟨a10, ha10, e11⟩ := List.mem_map.mp hr
    obtain ⟨ha10m, hspeed⟩ := List.mem_filter.mp ha10
    obtain ⟨a9, ha9, e10⟩ := List.mem_map.mp ha10m
    obtain ⟨a8, ha8, e9⟩ := List.mem_map.mp ha9
    obtain ⟨ha8m, hlt1440⟩ := List.mem_filter.mp ha8
    obtain ⟨ha7m, hgt0⟩ := List.mem_filter.mp ha8m
    obtain ⟨a6, ha6, e7⟩ := List.mem_map.mp ha7m
    obtain ⟨ha5m, hts⟩ := List.mem_filter.mp ha6
    obtain ⟨a4, ha4, e5⟩ := List.mem_map.mp ha5m
    obtain ⟨ha4m, hflt⟩ := List.mem_filter.mp ha4
    obtain ⟨ha3m, hfgt⟩ := List.mem_filter.mp ha4m
    obtain ⟨ha3n, hdlt⟩ := List.mem_filter.mp ha3m
    obtain ⟨ha2m, hdgt⟩ := List.mem_filter.mp ha3n
    obtain ⟨ha2n, hple⟩ := List.mem_filter.mp ha2m
    subst e5
    subst e7
    subst e9
    subst e10
    subst e11
    obtain ⟨ha1m, hpgt⟩ := List.mem_filter.mp ha2n
    obtain ⟨pc, hpceq, hpcpos⟩ := rGTz_num hpgt
    obtain ⟨dm, hdmeq, hdmpos⟩ := rGTz_num hdgt
    obtain ⟨fm, hfmeq, hfmpos⟩ := rGTz_num hfgt
    have hple2 : pc ≤ 10000 := rLEz_num (by rw [hpceq] at hple; exact hple)
    have hdlt2 : dm < 100000 := rLTz_num (by rw [hdmeq] at hdlt; exact hdlt)
    have hflt2 : fm < 1000000 := rLTz_num (by rw [hfmeq] at hflt; exact hflt)
    simp only [coerceTaxiDates, hpu, hdo, if_true] at hts
    rw [Bool.and_eq_true] at hts
    obtain ⟨p, hp⟩ := isTs_ts hts.1
    obtain ⟨d, hdp⟩ := isTs_ts hts.2
    have hpeq : a4.pickup_datetime = RTime.ts p := to_datetime_ts hp
    have hdeq : a4.dropoff_datetime = RTime.ts d := to_datetime_ts hdp
    have hdur : durSecOf (coerceTaxiDates t a4) = some (d - p) := by
      simp [durSecOf, coerceTaxiDates, hpu, hdo, hpeq, hdeq, to_datetime]
    have hgt0b : 0 < d - p := by
      simp only [setDuration] at hgt0
      rw [hdur] at hgt0
      exact oGTz_some hgt0
    have hlt1440b : d - p < 86400 := by
      simp only [setDuration] at hlt1440
      rw [hdur] at hlt1440
      exact oLTz_some hlt1440
    have hdist9 : (setCalendar (setDuration (coerceTaxiDates t a4))).trip_distance
        = RVal.num dm := by
      simp [setCalendar, setDuration, coerceTaxiDates, hdmeq]
    have hdur9 : (setCalendar (setDuration (coerceTaxiDates t a4))).trip_durationSec
        = some (d - p) := by
      simp [setCalendar, setDuration, hdur]
    have hsval : speedRow (setCalendar (setDuration (coerceTaxiDates t a4)))
        = (3600 * dm, 1000 * (d - p)) := by
      simp [speedRow, hdist9, hdur9, speedOf]
    have hspeed2 : 3600 * dm < 100 * (1000 * (d - p)) := by
      simp only [setSpeed] at hspeed
      rw [hsval] at hspeed
      have hpos : (0 : ℤ) < 1000 * (d - p) := by omega
      exact fracLT_pos hpos (by simpa [speedLT100] using hspeed)
    refine ⟨pc, dm, fm, p, d, ?_, hpcpos, hple2, ?_, hdmpos, hdlt2, ?_, hfmpos, hflt2,
      ?_, ?_, ?_, hgt0b, hlt1440b, ?_, hspeed2⟩
    · simp [setZones, setSpeed, setCalendar, setDuration, coerceTaxiDates, hpceq]
    · simp [setZones, setSpeed, setCalendar, setDuration, coerceTaxiDates, hdmeq]
    · simp [setZones, setSpeed, setCalendar, setDuration, coerceTaxiDates, hfmeq]
    · simp [setZones, setSpeed, setCalendar, setDuration, coerceTaxiDates, hpu, hpeq, to_datetime]
    · simp [setZones, setSpeed, setCalendar, setDuration, coerceTaxiDates, hdo, hdeq, to_datetime]
    · simp [setZones, setSpeed, setCalendar, setDuration, hdur]
    · simp [setZones, setSpeed, hsval]

/-- A clean one-row taxi input: 2 passengers, 2.5 miles, 12.50 dollars,
pickup at second 0 of 2024, dropoff 600 seconds later. -/
def taxiRowIn : TaxiRow :=
  inTaxiRow (RVal.num 2000) (RVal.num 2500) (RVal.num 12500) (RTime.ts 0) (RTime.ts 600)

def taxiTableIn : TaxiTable :=
  { has_passenger_count := true, has_trip_distance := true, has_fare_amount := true,
    has_tip_amount := false, has_total_amount := false,
    has_pickup_datetime := true, has_dropoff_datetime := true,
    has_PULocationID := false, has_DOLocationID := false,
    rows := [taxiRowIn] }

/-- The surviving row of the concrete run: ten minutes at 15 mph. -/
def taxiRowOut : TaxiRow :=
  { passenger_count := RVal.num 2000, trip_distance := RVal.num 2500,
    fare_amount := RVal.num 12500, tip_amount := RVal.null, total_amount := RVal.null,
    pickup_datetime := RTime.ts 0, dropoff_datetime := RTime.ts 600,
    PULocationID := RVal.null, DOLocationID := RVal.null,
    trip_durationSec := some 600, pickup_hour := some 0, pickup_day := some "Monday",
    pickup_month := some 1, pickup_weekday := some 0,
    avg_speed_mph := some (9000000, 600000), pickup_zone := none, dropoff_zone := none }

def taxiTableOut : TaxiTable := { taxiTableIn with rows := [taxiRowOut] }

/-- Witness for C8 at the concrete run. -/
theorem c8_taxi_row_invariants_witness :
    ∃ pc dm fm p d,
      taxiRowOut.passenger_count = RVal.num pc ∧ 0 < pc ∧ pc ≤ 10000 ∧
      taxiRowOut.trip_distance = RVal.num dm ∧ 0 < dm ∧ dm < 100000 ∧
      taxiRowOut.fare_amount = RVal.num fm ∧ 0 < fm ∧ fm < 1000000 ∧
      taxiRowOut.pickup_datetime = RTime.ts p ∧ taxiRowOut.dropoff_datetime = RTime.ts d ∧
      taxiRowOut.trip_durationSec = some (d - p) ∧ 0 < d - p ∧ d - p < 86400 ∧
      taxiRowOut.avg_speed_mph = some (3600 * dm, 1000 * (d - p)) ∧
      3600 * dm < 100 * (1000 * (d - p)) :=
  c8_taxi_row_invariants taxiTableIn rfl rfl rfl rfl rfl taxiTableOut (by decide)
    taxiRowOut (by decide)

/- ------------------------------------------------------------------ -/
/- C4                                                                  -/
/- ------------------------------------------------------------------ -/

/-- A non-empty taxi table lacking the pickup_datetime column. -/
def taxiNoPickup : TaxiTable :=
  { has_passenger_count := true, has_trip_distance := true, has_fare_amount := true,
    has_tip_amount := false, has_total_amount := false,
    has_pickup_datetime := false, has_dropoff_datetime := true,
    has_PULocationID := false, has_DOLocationID := false,
    rows := [inTaxiRow (RVal.num 1000) (RVal.num 1000) (RVal.num 5000)
      RTime.null (RTime.ts 300)] }

/-- A non-empty bikeshare table lacking the LATITUDE column. -/
def bikeNoLat : BikeTable :=
  { hasSTATION_NAME := true, hasCITY := true, hasLATITUDE := false, hasLONGITUDE := true,
    hasASOFDATE := false, hasYEAR := true,
    rows := [{ STATION_NAME := some "Grove St", CITY := some "Jersey City",
               LATITUDE := RVal.null, LONGITUDE := RVal.num (-740000),
               ASOFDATE := RTime.null, YEAR := some 2019,
               station_location := none, year_category := none }] }

/-- C4 counterexample: a non-empty taxi table without pickup_datetime
does not come back with the other derivations applied - the unguarded
dropna on the two datetime columns raises a KeyError and the whole
table's processing aborts; likewise a non-empty bikeshare table without
LATITUDE aborts at the unguarded coordinate filter. -/
theorem c4_missing_column_aborts_counterexample :
    clean_taxi_data taxiNoPickup =
        Except.error "KeyError: dropna subset column not in index" ∧
    clean_bikeshare_data bikeNoLat =
        Except.error "KeyError: LATITUDE or LONGITUDE not in index" :=
  ⟨by decide, by decide⟩

/-- C4 amended: the derivations the code guards by a column check
(numeric coercions and their range filters, the speed block, the zone
copies, the bikeshare year bucket and date coercion) are skipped when the
column is absent; with pickup_datetime and dropoff_datetime present the
taxi sanitizer never aborts and with LATITUDE, LONGITUDE, STATION_NAME
and CITY present the bikeshare sanitizer never aborts, whatever else is
missing.  But the original claim fails for the unguarded accesses: a
non-empty taxi table missing pickup_datetime or dropoff_datetime aborts
with a KeyError at the unguarded dropna, and a non-empty bikeshare table
missing LATITUDE or LONGITUDE aborts with a KeyError at the unguarded
coordinate filter, instead of being returned with the other derivations
applied. -/
theorem c4_guarded_derivations_skip :
    (∀ t : TaxiTable, t.has_pickup_datetime = true → t.has_dropoff_datetime = true →
        ∃ out, clean_taxi_data t = Except.ok out) ∧
    (∀ t : BikeTable, t.hasLATITUDE = true → t.hasLONGITUDE = true →
        t.hasSTATION_NAME = true → t.hasCITY = true →
        ∃ out, clean_bikeshare_data t = Except.ok out) ∧
    (∀ t : TaxiTable, t.rows ≠ [] →
        (t.has_pickup_datetime = false ∨ t.has_dropoff_datetime = false) →
        ∃ e, clean_taxi_data t = Except.error e) ∧
    (∀ t : BikeTable, t.rows ≠ [] →
        (t.hasLATITUDE = false ∨ t.hasLONGITUDE = false) →
        ∃ e, clean_bikeshare_data t = Except.error e) := by
  refine ⟨?_, ?_, ?_, ?_⟩
  · intro t h1 h2
    cases hcl : clean_taxi_data t with
    | ok out => exact ⟨out, rfl⟩
    | error e =>
        exfalso
        unfold clean_taxi_data at hcl
        by_cases he : t.rows.isEmpty = true
        · rw [if_pos he] at hcl
          cases hcl
        · rw [if_neg he, h1, h2] at hcl
          simp at hcl
  · intro t h1 h2 h3 h4
    cases hcl : clean_bikeshare_data t with
    | ok out => exact ⟨out, rfl⟩
    | error e =>
        exfalso
        by_cases he : t.rows.isEmpty = true
        · unfold clean_bikeshare_data at hcl
          rw [if_pos he] at hcl
          cases hcl
        · have hsl : ∀ r : BikeRow,
              ∃ y, (station_loc t.hasSTATION_NAME t.hasCITY r).map
                (fun loc => { r with station_location := some loc }) = Except.ok y := by
            intro r
            cases hs : station_loc t.hasSTATION_NAME t.hasCITY r with
            | ok loc => exact ⟨{ r with station_location := some loc }, rfl⟩
            | error e2 =>
                exfalso
                cases hn : r.STATION_NAME <;> simp [station_loc, h3, h4, hn] at hs
          obtain ⟨l2, hl2⟩ := exMap_ok_total _ (fun r _ => hsl r)
          unfold clean_bikeshare_data at hcl
          rw [if_neg he, h1, h2] at hcl
          simp only [Bool.and_self, if_true] at hcl
          rw [hl2] at hcl
          by_cases hy : t.hasYEAR = true
          · rw [hy] at hcl
            simp at hcl
          · rw [Bool.not_eq_true] at hy
            rw [hy] at hcl
            simp at hcl
  · intro t hne hmiss
    have he : t.rows.isEmpty = false := by simp [List.isEmpty_eq_false, hne]
    have hcond : (t.has_pickup_datetime && t.has_dropoff_datetime) = false := by
      rcases hmiss with h | h <;> simp [h]
    cases hcl : clean_taxi_data t with
    | error e => exact ⟨e, rfl⟩
    | ok out =>
        exfalso
        unfold clean_taxi_data at hcl
        rw [if_neg (by rw [he]; simp), hcond] at hcl
        simp at hcl
  · intro t hne hmiss
    have he : t.rows.isEmpty = false := by simp [List.isEmpty_eq_false, hne]
    have hcond : (t.hasLATITUDE && t.hasLONGITUDE) = false := by
      rcases hmiss with h | h <;> simp [h]
    cases hcl : clean_bikeshare_data t with
    | error e => exact ⟨e, rfl⟩
    | ok out =>
        exfalso
        unfold clean_bikeshare_data at hcl
        rw [if_neg (by rw [he]; simp), hcond] at hcl
        simp at hcl

/-- Witness for the amended C4: the taxi sanitizer succeeds on a table
that has the two datetime columns but no passenger, distance or fare
columns, and the bikeshare sanitizer succeeds on a table that has the
four unguarded columns but no YEAR or ASOFDATE. -/
theorem c4_guarded_derivations_skip_witness :
    (∃ out, clean_taxi_data
      { has_passenger_count := false, has_trip_distance := false, has_fare_amount := false,
        has_tip_amount := false, has_total_amount := false,
        has_pickup_datetime := true, has_dropoff_datetime := true,
        has_PULocationID := false, has_DOLocationID := false,
        rows := [inTaxiRow RVal.null RVal.null RVal.null (RTime.ts 0) (RTime.ts 60)] }
        = Except.ok out) ∧
    (∃ out, clean_bikeshare_data
      { hasSTATION_NAME := true, hasCITY := true, hasLATITUDE := true, hasLONGITUDE := true,
        hasASOFDATE := false, hasYEAR := false,
        rows := [{ STATION_NAME := some "Grove St", CITY := some "Jersey City",
                   LATITUDE := RVal.num 407000, LONGITUDE := RVal.num (-740000),
                   ASOFDATE := RTime.null, YEAR := none,
                   station_location := none, year_category := none }] }
        = Except.ok out) :=
  ⟨c4_guarded_derivations_skip.1 _ rfl rfl,
   c4_guarded_derivations_skip.2.1 _ rfl rfl rfl rfl⟩

/- ------------------------------------------------------------------ -/
/- C10                                                                 -/
/- ------------------------------------------------------------------ -/

/-- C10: a missing YEAR reads as NaN, both bucket comparisons are false,
and the row lands in the Legacy bucket - the same bucket as every
pre-2015 year - rather than in a missing value; this holds both for the
bucket lambda itself and through the whole bikeshare sanitizer. -/
theorem c10_missing_year_is_legacy :
    year_category_fn none = "Legacy" ∧
    (∀ y : ℤ, y < 2015 → year_category_fn (some y) = "Legacy") ∧
    (∀ (t : BikeTable) (out : BikeTable), t.hasYEAR = true →
        clean_bikeshare_data t = Except.ok out →
        ∀ r ∈ out.rows, r.YEAR = none → r.year_category = some "Legacy") := by
  refine ⟨rfl, ?_, ?_⟩
  · intro y hy
    have h1 : ¬((2020 : ℤ) ≤ y) := by omega
    have h2 : ¬((2015 : ℤ) ≤ y) := by omega
    simp [year_category_fn, oGEz, h1, h2]
  · intro t out hy hok r hr hyr
    unfold clean_bikeshare_data at hok
    by_cases he : t.rows.isEmpty = true
    · rw [if_pos he] at hok
      injection hok with h2
      subst h2
      rw [List.isEmpty_iff.mp he] at hr
      cases hr
    · rw [if_neg he] at hok
      by_cases hc : (t.hasLATITUDE && t.hasLONGITUDE) = true
      · rw [hc] at hok
        simp only [if_true] at hok
        cases hx : exMap (fun r =>
            (station_loc t.hasSTATION_NAME t.hasCITY r).map
              (fun loc => { r with station_location := some loc }))
            (((t.rows.map fun r =>
              { r with
                LATITUDE := if t.hasLATITUDE then to_numeric r.LATITUDE else r.LATITUDE,
                LONGITUDE := if t.hasLONGITUDE then to_numeric r.LONGITUDE else r.LONGITUDE }).filter
              fun r => rBetween r.LATITUDE 405000 410000 &&
                rBetween r.LONGITUDE (-743000) (-737000)).map
              fun r => { r with ASOFDATE := if t.hasASOFDATE then to_datetime r.ASOFDATE else r.ASOFDATE }) with
        | error e => rw [hx] at hok; cases hok
        | ok r4 =>
            rw [hx] at hok
            rw [hy] at hok
            simp only [if_true, Except.ok.injEq] at hok
            subst hok
            obtain ⟨r0, hr0, hre⟩ := List.mem_map.mp hr
            rw [← hre] at hyr
            rw [← hre]
            simp only at hyr
            simp [year_category_fn, oGEz, hyr]
      · rw [if_neg (by rw [Bool.not_eq_true] at hc; rw [hc]; simp)] at hok
        cases hok

/-- A one-row bikeshare table whose YEAR cell is missing. -/
def bikeTableNoYear : BikeTable :=
  { hasSTATION_NAME := true, hasCITY := true, hasLATITUDE := true, hasLONGITUDE := true,
    hasASOFDATE := false, hasYEAR := true,
    rows := [{ STATION_NAME := some "W 52 St", CITY := some "New York",
               LATITUDE := RVal.num 407000, LONGITUDE := RVal.num (-739000),
               ASOFDATE := RTime.null, YEAR := none,
               station_location := none, year_category := none }] }

def bikeRowNoYearOut : BikeRow :=
  { STATION_NAME := some "W 52 St", CITY := some "New York",
    LATITUDE := RVal.num 407000, LONGITUDE := RVal.num (-739000),
    ASOFDATE := RTime.null, YEAR := none,
    station_location := some "W 52 St, New York", year_category := some "Legacy" }

def bikeTableNoYearOut : BikeTable := { bikeTableNoYear with rows := [bikeRowNoYearOut] }

/-- Witness for C10 at the concrete run. -/
theorem c10_missing_year_is_legacy_witness :
    bikeRowNoYearOut.year_category = some "Legacy" :=
  c10_missing_year_is_legacy.2.2 bikeTableNoYear bikeTableNoYearOut rfl (by decide)
    bikeRowNoYearOut (by decide) rfl

end Spec2Proof
